import Mathlib

/-!
A shallow embedding of the plugin host in `modules/scripts.py`:
plugin discovery (`load_scripts`), safe invocation (`wrap_call`),
session construction with argument-slot allocation (`ScriptRunner.setup_ui`
and the `select_script` change rule), and dispatch (`ScriptRunner.run`).

Plugin-supplied code may raise; calls into it are modelled as `Except PyErr`.
The argument vector holds opaque values modelled as `Int` (slot 0, the
selector, really is an integer in the source). The processing context and
the `Processed` result are opaque and modelled as `Nat` / `Option Nat`.
-/

namespace Scripts

/-- A Python exception escaping a call: either an `IndexError` (from list
indexing in the host) or an arbitrary exception raised by plugin code. -/
inductive PyErr where
  | indexError : PyErr
  | exn : String → PyErr
deriving DecidableEq, Repr

/-- A UI control returned by a plugin's `ui` method.  `source` models the
`custom_script_source` tag and `visible` the gradio visibility flag. -/
structure Control where
  cid : Nat
  visible : Bool
  source : String
deriving DecidableEq, Repr

/-- A loaded plugin class: its name, the names of its proper superclasses,
and its (possibly raising) methods, mirroring the `Script` base contract. -/
structure ScriptClass where
  cname : String
  ancestors : List String
  show_ : Bool → Except PyErr Bool
  title : Except PyErr String
  ui : Bool → Except PyErr (Option (List Control))
  ui_restraints : Except PyErr (List (String × List String))
  run : Nat → List Int → Except PyErr (Option Nat)

/-- The `Script` base class itself (`modules/scripts.py`, lines 12-57):
`title` and `run` raise `NotImplementedError`, `ui` returns `None`,
`ui_restraints` returns `{}`, `show` returns `True`. -/
def ScriptBase : ScriptClass where
  cname := "Script"
  ancestors := []
  show_ := fun _ => Except.ok true
  title := Except.error (PyErr.exn "NotImplementedError")
  ui := fun _ => Except.ok none
  ui_restraints := Except.ok []
  run := fun _ _ => Except.error (PyErr.exn "NotImplementedError")

/-- A top-level binding in an executed plugin module's namespace:
either a class object or some other value (`type(x) == type` fails). -/
inductive Binding where
  | cls : ScriptClass → Binding
  | other : Binding

/-- `issubclass(c, Script)`: `c` is the `Script` base itself or lists it
among its superclasses. -/
def issubclassScript (c : ScriptClass) : Bool :=
  c.cname == "Script" || c.ancestors.contains "Script"

/-- The binding passes the registration test of `load_scripts`, line 83:
`type(script_class) == type and issubclass(script_class, Script)`. -/
def bindingRegisters (b : Binding) : Option ScriptClass :=
  match b with
  | Binding.cls c => if issubclassScript c then some c else none
  | Binding.other => none

/-- One directory entry seen by `load_scripts`.  `result = none` models a
file that is unreadable, fails to compile, or raises during top-level
execution; `result = some bs` gives the module namespace's bindings after
a successful `exec`.  `trace` is the `traceback.format_exc()` text. -/
structure SFile where
  fname : String
  isFile : Bool
  result : Option (List Binding)
  trace : String

/-- `os.path.join` for the model. -/
def pathJoin (a b : String) : String := a ++ "/" ++ b

/-- `os.path.basename` for the model. -/
def basename (p : String) : String := ((p.splitOn "/").getLast?).getD p

/-- The mutable module state touched by discovery: the global
`scripts_data` registry and the diagnostic stream (`sys.stderr` prints). -/
structure LoadState where
  scripts_data : List (ScriptClass × String)
  log : List String

/-- One iteration of the `load_scripts` loop (lines 67-88): skip
non-files; on failure print the two diagnostics; on success append every
registering top-level class, paired with the file's path. -/
def load_one (bd : String) (st : LoadState) (f : SFile) : LoadState :=
  if f.isFile = false then st
  else
    match f.result with
    | none =>
        { st with log := st.log ++ ["Error loading script: " ++ f.fname, f.trace] }
    | some bs =>
        { st with scripts_data :=
            st.scripts_data ++ (bs.filterMap bindingRegisters).map (fun c => (c, pathJoin bd f.fname)) }

/-- The `for filename in os.listdir(basedir)` loop. -/
def loadLoop (bd : String) : List SFile → LoadState → LoadState
  | [], st => st
  | f :: rest, st => loadLoop bd rest (load_one bd st f)

/-- `load_scripts(basedir)` (lines 63-88): no-op when the directory does
not exist, otherwise scan each entry in turn. -/
def load_scripts (bd : String) (dirExists : Bool) (files : List SFile) (st : LoadState) : LoadState :=
  if dirExists then loadLoop bd files st else st

/-- `wrap_call` (lines 91-99) with its default `default=None`: the call's
result on success, `None` on any raised exception. -/
def wrap_call {α : Type} (r : Except PyErr α) : Option α :=
  match r with
  | Except.ok v => some v
  | Except.error _ => none

/-- `wrap_call(script.ui, script.filename, "ui", is_img2img)` as used at
line 127 of the source: `None` both when the call raises and when `ui`
itself returns `None`. -/
def uiControls (b : Bool) (e : ScriptClass × String) : Option (List Control) :=
  (wrap_call (e.1.ui b)).join

/-- Python `x or fb` for a string-or-None `x`: the fallback replaces both
`None` and the empty (falsy) string. -/
def pyOrStr (x : Option String) (fb : String) : String :=
  match x with
  | none => fb
  | some s => if s = "" then fb else s

/-- Python list indexing `xs[i]` with negative-index wrap-around;
`IndexError` when out of range. -/
def pyGet {α : Type} (xs : List α) (i : Int) : Except PyErr α :=
  let j : Int := if i < 0 then (xs.length : Int) + i else i
  if 0 ≤ j then
    match xs[j.toNat]? with
    | some a => Except.ok a
    | none => Except.error PyErr.indexError
  else Except.error PyErr.indexError

/-- Python slicing `xs[a:b]` for non-negative bounds (clamping included). -/
def pySlice {α : Type} (xs : List α) (a b : Nat) : List α := (xs.take b).drop a

/-- `json.dumps` on a string-to-string-list mapping, with Python's default
separators; `jsonDumps [] = "\x7b\x7d"` like `json.dumps(\x7b\x7d)`. -/
def jsonDumps (r : List (String × List String)) : String :=
  "\x7b" ++
    String.intercalate ", "
      (r.map (fun kv =>
        "\"" ++ kv.1 ++ "\": [" ++
          String.intercalate ", " (kv.2.map (fun v => "\"" ++ v ++ "\"")) ++ "]")) ++
  "\x7d"

/-- A plugin instance retained by a session, after slot allocation:
the class, its `filename`, and the recorded `args_from`/`args_to` range. -/
structure ScriptInst where
  cls : ScriptClass
  filename : String
  args_from : Nat
  args_to : Nat

/-- One component of the session's argument vector. -/
inductive Comp where
  | dropdown : List String → Comp
  | control : Control → Comp
  | restraintsBox : String → Comp

namespace ScriptRunner

/-- The first `setup_ui` loop (lines 107-114): instantiate each registry
descriptor, set its `filename`, and keep it iff `show(is_img2img)` is
truthy.  `show` is called directly, so an exception propagates. -/
def filterShow : List (ScriptClass × String) → Bool → Except PyErr (List (ScriptClass × String))
  | [], _ => Except.ok []
  | e :: rest, b =>
    match e.1.show_ b with
    | Except.error err => Except.error err
    | Except.ok v =>
      match filterShow rest b with
      | Except.error err => Except.error err
      | Except.ok tail => Except.ok (if v then e :: tail else tail)

/-- The slot-allocation loop (lines 123-137).  `pos` is the current length
of `inputs`.  Each retained plugin records `args_from = args_to = pos`;
when `wrap_call(script.ui, ...)` yields controls they are tagged with the
plugin's basename, hidden, appended, and `args_to` is updated. -/
def allocate (b : Bool) : List (ScriptClass × String) → Nat → List ScriptInst × List Control
  | [], _ => ([], [])
  | e :: rest, pos =>
    match uiControls b e with
    | none =>
      let t := allocate b rest pos
      (⟨e.1, e.2, pos, pos⟩ :: t.1, t.2)
    | some cs =>
      let tagged := cs.map (fun c => { c with source := basename e.2, visible := false })
      let t := allocate b rest (pos + tagged.length)
      (⟨e.1, e.2, pos, pos + tagged.length⟩ :: t.1, tagged ++ t.2)

/-- `ScriptRunner.setup_ui` (lines 106-170).  `prior` is the runner's
`self.scripts` content before the call (empty for a fresh runner); the
result is the new `self.scripts` (with ranges assigned) and the `inputs`
vector: the selector dropdown with choices `"None" :: titles`, the tagged
plugin controls, and the trailing restraints textbox initialised to
`"\x7b\x7d"`. -/
def setup_ui (prior : List (ScriptClass × String)) (data : List (ScriptClass × String)) (b : Bool) :
    Except PyErr (List ScriptInst × List Comp) :=
  match filterShow data b with
  | Except.error e => Except.error e
  | Except.ok newly =>
    let scripts := prior ++ newly
    let titles := scripts.map (fun e => pyOrStr (wrap_call e.1.title) (e.2 ++ " [error]"))
    let t := allocate b scripts 1
    Except.ok (t.1,
      Comp.dropdown ("None" :: titles) :: (t.2.map Comp.control ++ [Comp.restraintsBox "\x7b\x7d"]))

/-- The visibility list computed by `select_script` (line 153): one entry
per input except the trailing textbox; index 0 (the selector) is always
visible, any other index iff it falls in `[a_from, a_to)`. -/
def visList (a_from a_to nInputs : Nat) : List Bool :=
  (List.range (nInputs - 1)).map (fun i => if i = 0 then true else decide (a_from ≤ i ∧ i < a_to))

/-- `select_script` (lines 142-155): for an in-range selector, visibility
from the selected instance's range and the JSON of its
`ui_restraints()`; otherwise everything hidden and payload `"\x7b\x7d"`. -/
def select_script (scripts : List ScriptInst) (nInputs : Nat) (script_index : Int) :
    Except PyErr (List Bool × String) :=
  if 0 < script_index ∧ script_index ≤ (scripts.length : Int) then
    match pyGet scripts (script_index - 1) with
    | Except.error e => Except.error e
    | Except.ok script =>
      match script.cls.ui_restraints with
      | Except.error e => Except.error e
      | Except.ok r => Except.ok (visList script.args_from script.args_to nInputs, jsonDumps r)
  else
    Except.ok (visList 0 0 nInputs, jsonDumps [])

/-- The observable outcome of one dispatch: the `run` calls made (script,
context, argument slice), how many times `shared.total_tqdm.clear()` ran,
and the returned value or escaping exception. -/
structure DispatchResult where
  invocations : List (ScriptInst × Nat × List Int)
  clears : Nat
  out : Except PyErr (Option Nat)

/-- `ScriptRunner.run` (lines 172-188): selector `0` returns `None`;
otherwise index `self.scripts[script_index-1]` (Python semantics), slice
`args[args_from:args_to]`, call the plugin's `run` unwrapped, and clear
the progress counter after a successful return. -/
def run (scripts : List ScriptInst) (p : Nat) (args : List Int) : DispatchResult :=
  match args with
  | [] => ⟨[], 0, Except.error PyErr.indexError⟩
  | script_index :: _ =>
    if script_index = 0 then ⟨[], 0, Except.ok none⟩
    else
      match pyGet scripts (script_index - 1) with
      | Except.error e => ⟨[], 0, Except.error e⟩
      | Except.ok script =>
        let script_args := pySlice args script.args_from script.args_to
        match script.cls.run p script_args with
        | Except.error e => ⟨[(script, p, script_args)], 0, Except.error e⟩
        | Except.ok processed => ⟨[(script, p, script_args)], 1, Except.ok processed⟩

end ScriptRunner

/-- The number of argument slots one retained descriptor contributes to a
session for surface `b`: the length of its wrapped `ui` result, `0` when
the call raises or returns `None`. -/
def contrib (b : Bool) (e : ScriptClass × String) : Nat :=
  match uiControls b e with
  | none => 0
  | some cs => cs.length

lemma allocate_insts_length (b : Bool) :
    ∀ (pre : List (ScriptClass × String)) (pos : Nat),
      (ScriptRunner.allocate b pre pos).1.length = pre.length := by
  intro pre
  induction pre with
  | nil => intro pos; simp [ScriptRunner.allocate]
  | cons x xs ih =>
    intro pos
    cases hui : uiControls b x with
    | none => simp [ScriptRunner.allocate, hui, ih]
    | some cs => simp [ScriptRunner.allocate, hui, ih]

lemma allocate_ctrls_length (b : Bool) :
    ∀ (pre : List (ScriptClass × String)) (pos : Nat),
      (ScriptRunner.allocate b pre pos).2.length = (pre.map (contrib b)).sum := by
  intro pre
  induction pre with
  | nil => intro pos; simp [ScriptRunner.allocate]
  | cons x xs ih =>
    intro pos
    cases hui : uiControls b x with
    | none => simp [ScriptRunner.allocate, hui, ih, contrib]
    | some cs => simp [ScriptRunner.allocate, hui, ih, contrib]

/-- Full characterisation of the ranges recorded by the allocation loop:
the `k`-th retained plugin keeps its class and filename, starts at `pos`
plus the slots of all earlier plugins, and spans exactly its own
contribution. -/
lemma allocate_get (b : Bool) :
    ∀ (pre : List (ScriptClass × String)) (pos k : Nat) (e : ScriptClass × String),
      pre[k]? = some e →
      ∃ s : ScriptInst,
        (ScriptRunner.allocate b pre pos).1[k]? = some s ∧
        s.cls = e.1 ∧ s.filename = e.2 ∧
        s.args_from = pos + ((pre.take k).map (contrib b)).sum ∧
        s.args_to = s.args_from + contrib b e := by
  intro pre
  induction pre with
  | nil => intro pos k e h; simp at h
  | cons x xs ih =>
    intro pos k e h
    match k with
    | 0 =>
      rw [List.getElem?_cons_zero, Option.some.injEq] at h
      cases h
      cases hui : uiControls b x with
      | none =>
        refine ⟨⟨x.1, x.2, pos, pos⟩, ?_, rfl, rfl, by simp, ?_⟩
        · simp [ScriptRunner.allocate, hui]
        · simp [contrib, hui]
      | some cs =>
        refine ⟨⟨x.1, x.2, pos, pos + cs.length⟩, ?_, rfl, rfl, by simp, ?_⟩
        · simp [ScriptRunner.allocate, hui]
        · simp [contrib, hui]
    | k + 1 =>
      rw [List.getElem?_cons_succ] at h
      cases hui : uiControls b x with
      | none =>
        obtain ⟨s, hs, h1, h2, h3, h4⟩ := ih pos k e h
        refine ⟨s, ?_, h1, h2, ?_, h4⟩
        · simp only [ScriptRunner.allocate, hui, List.getElem?_cons_succ]
          exact hs
        · rw [h3]; simp [contrib, hui]
      | some cs =>
        obtain ⟨s, hs, h1, h2, h3, h4⟩ := ih (pos + cs.length) k e h
        refine ⟨s, ?_, h1, h2, ?_, h4⟩
        · simp only [ScriptRunner.allocate, hui, List.getElem?_cons_succ]
          simpa using hs
        · rw [h3]
          simp [contrib, hui, Nat.add_assoc]

lemma mapSum_eq_rangeSum (b : Bool) :
    ∀ (pre : List (ScriptClass × String)) (c : Nat → Nat),
      (∀ k e, pre[k]? = some e → contrib b e = c k) →
      (pre.map (contrib b)).sum = ∑ j in Finset.range pre.length, c j := by
  intro pre
  induction pre with
  | nil => intro c _; simp
  | cons x xs ih =>
    intro c h
    have h0 : contrib b x = c 0 := h 0 x (by simp)
    have htail : ∀ k e, xs[k]? = some e → contrib b e = c (k + 1) :=
      fun k e hk => h (k + 1) e (by simpa using hk)
    simp only [List.map_cons, List.sum_cons, List.length_cons]
    rw [ih (fun k => c (k + 1)) htail, h0, Finset.sum_range_succ']
    omega

lemma takeMapSum (b : Bool) (pre : List (ScriptClass × String)) (c : Nat → Nat)
    (hc : ∀ k e, pre[k]? = some e → contrib b e = c k)
    (k : Nat) (hk : k ≤ pre.length) :
    ((pre.take k).map (contrib b)).sum = ∑ j in Finset.range k, c j := by
  have hlen : (pre.take k).length = k := by
    rw [List.length_take]; omega
  have hmain := mapSum_eq_rangeSum b (pre.take k) c (fun j e hj => by
    apply hc j e
    rw [← hj]
    refine (List.getElem?_take_of_lt ?_).symm
    have hj2 := List.getElem?_eq_some.mp hj
    obtain ⟨hj3, _⟩ := hj2
    omega)
  rw [hmain, hlen]

lemma setup_ui_eq (prior data : List (ScriptClass × String)) (b : Bool)
    (newly : List (ScriptClass × String))
    (h : ScriptRunner.filterShow data b = Except.ok newly) :
    ScriptRunner.setup_ui prior data b =
      Except.ok ((ScriptRunner.allocate b (prior ++ newly) 1).1,
        Comp.dropdown ("None" ::
            (prior ++ newly).map (fun e => pyOrStr (wrap_call e.1.title) (e.2 ++ " [error]"))) ::
          ((ScriptRunner.allocate b (prior ++ newly) 1).2.map Comp.control ++
            [Comp.restraintsBox "\x7b\x7d"])) := by
  simp [ScriptRunner.setup_ui, h]

/-- C1: for a session built over `N` retained plugins where the `k`-th
retained plugin's `ui` yields `c k` controls, the inputs vector has length
`1 + (∑ c k) + 1` (selector slot plus trailing restraint slot), each
instance's recorded range satisfies `args_to - args_from = c k`, and the
ranges are contiguous, non-overlapping, in discovery order, starting at
index 1 right after the selector slot. -/
theorem C1_session_layout (data : List (ScriptClass × String)) (b : Bool)
    (retained : List (ScriptClass × String)) (c : Nat → Nat)
    (hfs : ScriptRunner.filterShow data b = Except.ok retained)
    (hc : ∀ k e, retained[k]? = some e → ∃ cs, uiControls b e = some cs ∧ cs.length = c k) :
    ∃ insts comps,
      ScriptRunner.setup_ui [] data b = Except.ok (insts, comps) ∧
      insts.length = retained.length ∧
      comps.length = 1 + (∑ j in Finset.range retained.length, c j) + 1 ∧
      (∀ k s, insts[k]? = some s →
        s.args_from = 1 + ∑ j in Finset.range k, c j ∧
        s.args_to = s.args_from + c k ∧
        s.args_to - s.args_from = c k) ∧
      (∀ (k : Nat) (s t : ScriptInst), insts[k]? = some s → insts[k + 1]? = some t →
        t.args_from = s.args_to) ∧
      (∀ (k l : Nat) (s t : ScriptInst), k < l → insts[k]? = some s → insts[l]? = some t →
        s.args_to ≤ t.args_from) := by
  have hcontrib : ∀ k e, retained[k]? = some e → contrib b e = c k := by
    intro k e hk
    obtain ⟨cs, hcs, hlen⟩ := hc k e hk
    simp [contrib, hcs, hlen]
  have hsetup := setup_ui_eq [] data b retained hfs
  rw [List.nil_append] at hsetup
  have hkey : ∀ k s, (ScriptRunner.allocate b retained 1).1[k]? = some s →
      s.args_from = 1 + ∑ j in Finset.range k, c j ∧ s.args_to = s.args_from + c k := by
    intro k s hs
    have hk : k < retained.length := by
      have h2 := List.getElem?_eq_some.mp hs
      obtain ⟨hlt, _⟩ := h2
      rw [allocate_insts_length] at hlt
      exact hlt
    have he : retained[k]? = some retained[k] := List.getElem?_eq_getElem hk
    obtain ⟨t, ht, _, _, h3, h4⟩ := allocate_get b retained 1 k (retained[k]) he
    rw [hs] at ht
    injection ht with hts
    subst hts
    constructor
    · rw [h3, takeMapSum b retained c hcontrib k (Nat.le_of_lt hk)]
    · rw [h4, hcontrib k (retained[k]) he]
  refine ⟨(ScriptRunner.allocate b retained 1).1, _, hsetup,
    allocate_insts_length b retained 1, ?_, ?_, ?_, ?_⟩
  · have h2 := allocate_ctrls_length b retained 1
    have h3 := mapSum_eq_rangeSum b retained c hcontrib
    simp only [List.length_cons, List.length_append, List.length_map,
      List.length_nil, h2, h3]
    omega
  · intro k s hs
    obtain ⟨h1, h2⟩ := hkey k s hs
    exact ⟨h1, h2, by omega⟩
  · intro k s t h1 h2
    obtain ⟨ha1, ha2⟩ := hkey k s h1
    obtain ⟨hb1, _⟩ := hkey (k + 1) t h2
    rw [Finset.sum_range_succ] at hb1
    omega
  · intro k l s t hkl h1 h2
    obtain ⟨ha1, ha2⟩ := hkey k s h1
    obtain ⟨hb1, _⟩ := hkey l t h2
    have hle : (∑ j in Finset.range (k + 1), c j) ≤ ∑ j in Finset.range l, c j :=
      Finset.sum_le_sum_of_subset (Finset.range_subset.mpr hkl)
    rw [Finset.sum_range_succ] at hle
    omega

lemma pyGet_nat {α : Type} (xs : List α) (k : Nat) (a : α) (hx : xs[k]? = some a) :
    pyGet xs (k : Int) = Except.ok a := by
  simp only [pyGet]
  rw [if_neg (by omega : ¬((k : Int) < 0)), if_pos (by omega : (0 : Int) ≤ (k : Int))]
  have h2 : ((k : Int)).toNat = k := by omega
  rw [h2, hx]

lemma pyGet_neg {α : Type} (xs : List α) (t : Int) (j : Nat) (a : α)
    (ht : t < 0) (hj : (j : Int) = (xs.length : Int) + t) (hx : xs[j]? = some a) :
    pyGet xs t = Except.ok a := by
  simp only [pyGet]
  rw [if_pos ht, if_pos (by omega : (0 : Int) ≤ (xs.length : Int) + t)]
  have h2 : ((xs.length : Int) + t).toNat = j := by omega
  rw [h2, hx]

lemma pyGet_out_of_range {α : Type} (xs : List α) (t : Int)
    (h : (xs.length : Int) ≤ t ∨ t < -(xs.length : Int)) :
    pyGet xs t = Except.error PyErr.indexError := by
  simp only [pyGet]
  split_ifs with h1 h2 h3
  · exfalso; omega
  · rfl
  · rw [List.getElem?_eq_none (by omega)]
  · rfl

/-- A demo plugin contributing two controls. -/
def demoA : ScriptClass where
  cname := "DemoA"
  ancestors := ["Script"]
  show_ := fun _ => Except.ok true
  title := Except.ok "Demo A"
  ui := fun _ => Except.ok (some [⟨10, true, ""⟩, ⟨11, true, ""⟩])
  ui_restraints := Except.ok [("methods", ["Euler", "DDIM"])]
  run := fun p as => Except.ok (some (p + as.length))

/-- A demo plugin contributing one control. -/
def demoB : ScriptClass where
  cname := "DemoB"
  ancestors := ["Script"]
  show_ := fun _ => Except.ok true
  title := Except.ok "Demo B"
  ui := fun _ => Except.ok (some [⟨20, true, ""⟩])
  ui_restraints := Except.ok []
  run := fun p _ => Except.ok (some p)

/-- A two-plugin demo registry. -/
def demoData : List (ScriptClass × String) := [(demoA, "sd/a.py"), (demoB, "sd/b.py")]

/-- The control counts of `demoData`: 2 then 1. -/
def demoCount : Nat → Nat := fun k => if k = 0 then 2 else if k = 1 then 1 else 0

theorem C1_session_layout_witness :
    ∃ insts comps,
      ScriptRunner.setup_ui [] demoData false = Except.ok (insts, comps) ∧
      insts.length = demoData.length ∧
      comps.length = 1 + (∑ j in Finset.range demoData.length, demoCount j) + 1 ∧
      (∀ k s, insts[k]? = some s →
        s.args_from = 1 + ∑ j in Finset.range k, demoCount j ∧
        s.args_to = s.args_from + demoCount k ∧
        s.args_to - s.args_from = demoCount k) ∧
      (∀ (k : Nat) (s t : ScriptInst), insts[k]? = some s → insts[k + 1]? = some t →
        t.args_from = s.args_to) ∧
      (∀ (k l : Nat) (s t : ScriptInst), k < l → insts[k]? = some s → insts[l]? = some t →
        s.args_to ≤ t.args_from) :=
  C1_session_layout demoData false demoData demoCount rfl (by
    intro k e h
    match k with
    | 0 =>
      simp only [demoData, List.getElem?_cons_zero, Option.some.injEq] at h
      cases h
      exact ⟨_, rfl, rfl⟩
    | 1 =>
      simp only [demoData, List.getElem?_cons_succ, List.getElem?_cons_zero,
        Option.some.injEq] at h
      cases h
      exact ⟨_, rfl, rfl⟩
    | n + 2 =>
      simp [demoData] at h)

/-- C9: building a session twice from an unchanged registry for the same
surface, each time from a fresh runner (a session's instances are
discarded with it), produces the same retained-plugin ordering and
identical `(args_from, args_to)` boundaries both times. -/
theorem C9_build_idempotent (data : List (ScriptClass × String)) (b : Bool)
    (p1 p2 : List (ScriptClass × String)) (h1 : p1 = []) (h2 : p2 = []) :
    Except.map (fun t => t.1.map (fun s : ScriptInst => (s.filename, s.args_from, s.args_to)))
        (ScriptRunner.setup_ui p1 data b)
      = Except.map (fun t => t.1.map (fun s : ScriptInst => (s.filename, s.args_from, s.args_to)))
        (ScriptRunner.setup_ui p2 data b) := by
  rw [h1, h2]

theorem C9_build_idempotent_witness :
    Except.map (fun t => t.1.map (fun s : ScriptInst => (s.filename, s.args_from, s.args_to)))
        (ScriptRunner.setup_ui [] demoData false)
      = Except.map (fun t => t.1.map (fun s : ScriptInst => (s.filename, s.args_from, s.args_to)))
        (ScriptRunner.setup_ui [] demoData false) :=
  C9_build_idempotent demoData false [] [] rfl rfl

/-- C2: dispatch with selector `0` returns `None` invoking no plugin and
clearing nothing; dispatch with selector `k+1` (`1`-based, in range)
invokes exactly the `k`-th retained plugin's `run` with the processing
context and exactly the slice `args[args_from:args_to]`, and on a
successful return clears the shared progress counter exactly once. -/
lemma run_sel (scripts : List ScriptInst) (p : Nat) (i : Int) (rest : List Int)
    (s : ScriptInst) (hi : ¬(i = 0)) (hget : pyGet scripts (i - 1) = Except.ok s) :
    ScriptRunner.run scripts p (i :: rest)
      = match s.cls.run p (pySlice (i :: rest) s.args_from s.args_to) with
        | Except.error e =>
            ⟨[(s, p, pySlice (i :: rest) s.args_from s.args_to)], 0, Except.error e⟩
        | Except.ok processed =>
            ⟨[(s, p, pySlice (i :: rest) s.args_from s.args_to)], 1, Except.ok processed⟩ := by
  simp only [ScriptRunner.run]
  rw [if_neg hi, hget]

theorem C2_dispatch (scripts : List ScriptInst) (p : Nat) (rest : List Int)
    (k : Nat) (s : ScriptInst) (hs : scripts[k]? = some s) :
    ScriptRunner.run scripts p (0 :: rest) = ⟨[], 0, Except.ok none⟩ ∧
    (ScriptRunner.run scripts p (((k : Int) + 1) :: rest)).invocations
      = [(s, p, pySlice (((k : Int) + 1) :: rest) s.args_from s.args_to)] ∧
    (∀ res, s.cls.run p (pySlice (((k : Int) + 1) :: rest) s.args_from s.args_to)
        = Except.ok res →
      ScriptRunner.run scripts p (((k : Int) + 1) :: rest)
        = ⟨[(s, p, pySlice (((k : Int) + 1) :: rest) s.args_from s.args_to)], 1,
            Except.ok res⟩) := by
  have hget : pyGet scripts ((k : Int) + 1 - 1) = Except.ok s := by
    have he : (k : Int) + 1 - 1 = (k : Int) := by ring
    rw [he]
    exact pyGet_nat scripts k s hs
  refine ⟨rfl, ?_, ?_⟩
  · rw [run_sel scripts p ((k : Int) + 1) rest s (by omega) hget]
    cases hr : s.cls.run p (pySlice (((k : Int) + 1) :: rest) s.args_from s.args_to) <;>
      simp [hr]
  · intro res hr
    rw [run_sel scripts p ((k : Int) + 1) rest s (by omega) hget, hr]

/-- A built demo instance with range `[1, 3)`. -/
def demoInstA : ScriptInst := ⟨demoA, "sd/a.py", 1, 3⟩

/-- A built demo instance with range `[3, 4)`. -/
def demoInstB : ScriptInst := ⟨demoB, "sd/b.py", 3, 4⟩

theorem C2_dispatch_witness :
    ScriptRunner.run [demoInstA, demoInstB] 5 (0 :: [7, 8, 9]) = ⟨[], 0, Except.ok none⟩ ∧
    (ScriptRunner.run [demoInstA, demoInstB] 5 (((0 : Int) + 1) :: [7, 8, 9])).invocations
      = [(demoInstA, 5, pySlice (((0 : Int) + 1) :: [7, 8, 9]) demoInstA.args_from demoInstA.args_to)] ∧
    (∀ res, demoInstA.cls.run 5
        (pySlice (((0 : Int) + 1) :: [7, 8, 9]) demoInstA.args_from demoInstA.args_to)
        = Except.ok res →
      ScriptRunner.run [demoInstA, demoInstB] 5 (((0 : Int) + 1) :: [7, 8, 9])
        = ⟨[(demoInstA, 5,
              pySlice (((0 : Int) + 1) :: [7, 8, 9]) demoInstA.args_from demoInstA.args_to)], 1,
            Except.ok res⟩) :=
  C2_dispatch [demoInstA, demoInstB] 5 [7, 8, 9] 0 demoInstA rfl

lemma visList_get (a_from a_to nInputs j : Nat) (hj : j < nInputs - 1) :
    (ScriptRunner.visList a_from a_to nInputs)[j]?
      = some (if j = 0 then true else decide (a_from ≤ j ∧ j < a_to)) := by
  simp [ScriptRunner.visList, List.getElem?_range hj]

lemma select_sel (scripts : List ScriptInst) (nInputs : Nat) (idx : Int) (s : ScriptInst)
    (hguard : 0 < idx ∧ idx ≤ (scripts.length : Int))
    (hget : pyGet scripts (idx - 1) = Except.ok s) :
    ScriptRunner.select_script scripts nInputs idx
      = match s.cls.ui_restraints with
        | Except.error e => Except.error e
        | Except.ok r =>
            Except.ok (ScriptRunner.visList s.args_from s.args_to nInputs, jsonDumps r) := by
  simp only [ScriptRunner.select_script]
  rw [if_pos hguard, hget]

/-- C3: with an in-range selector `k+1` the change rule makes visible
exactly the non-selector, non-trailing controls whose position lies in
`[args_from, args_to)` of the `k`-th retained instance and sets the
trailing payload to the JSON of its `ui_restraints()`; with selector `0`
or any integer outside `[0, N]` it hides every plugin control and sets
the payload to `"\x7b\x7d"` without raising. -/
theorem C3_select_rule (scripts : List ScriptInst) (nInputs : Nat) (idx : Int) :
    (∀ (k : Nat) (s : ScriptInst) (r : List (String × List String)),
      idx = (k : Int) + 1 → scripts[k]? = some s → s.cls.ui_restraints = Except.ok r →
      ScriptRunner.select_script scripts nInputs idx
        = Except.ok (ScriptRunner.visList s.args_from s.args_to nInputs, jsonDumps r) ∧
      (∀ j : Nat, 1 ≤ j → j < nInputs - 1 →
        ((ScriptRunner.visList s.args_from s.args_to nInputs)[j]? = some true ↔
          (s.args_from ≤ j ∧ j < s.args_to)))) ∧
    ((idx ≤ 0 ∨ (scripts.length : Int) < idx) →
      ScriptRunner.select_script scripts nInputs idx
        = Except.ok (ScriptRunner.visList 0 0 nInputs, "\x7b\x7d") ∧
      (∀ j : Nat, 1 ≤ j → j < nInputs - 1 →
        (ScriptRunner.visList 0 0 nInputs)[j]? = some false)) := by
  constructor
  · intro k s r hidx hs hr
    subst hidx
    obtain ⟨hk, _⟩ := List.getElem?_eq_some.mp hs
    have hguard : 0 < (k : Int) + 1 ∧ (k : Int) + 1 ≤ (scripts.length : Int) := by omega
    have hget : pyGet scripts ((k : Int) + 1 - 1) = Except.ok s := by
      have he : (k : Int) + 1 - 1 = (k : Int) := by ring
      rw [he]
      exact pyGet_nat scripts k s hs
    refine ⟨?_, ?_⟩
    · rw [select_sel scripts nInputs ((k : Int) + 1) s hguard hget, hr]
    · intro j hj1 hj2
      rw [visList_get s.args_from s.args_to nInputs j hj2, if_neg (by omega : ¬(j = 0))]
      simp
  · intro hrange
    have hguard : ¬(0 < idx ∧ idx ≤ (scripts.length : Int)) := by omega
    refine ⟨?_, ?_⟩
    · simp only [ScriptRunner.select_script]
      rw [if_neg hguard]
      rfl
    · intro j hj1 hj2
      rw [visList_get 0 0 nInputs j hj2, if_neg (by omega : ¬(j = 0))]
      simp

/-- The descriptors one directory entry contributes. -/
def descsOf (bd : String) (f : SFile) : List (ScriptClass × String) :=
  if f.isFile = false then []
  else
    match f.result with
    | none => []
    | some bs => (bs.filterMap bindingRegisters).map (fun c => (c, pathJoin bd f.fname))

/-- The diagnostics one directory entry prints. -/
def logOf (f : SFile) : List String :=
  if f.isFile = false then []
  else
    match f.result with
    | none => ["Error loading script: " ++ f.fname, f.trace]
    | some _ => []

lemma load_one_eq (bd : String) (st : LoadState) (f : SFile) :
    load_one bd st f = ⟨st.scripts_data ++ descsOf bd f, st.log ++ logOf f⟩ := by
  by_cases hf : f.isFile = false
  · simp [load_one, descsOf, logOf, hf]
  · cases hr : f.result with
    | none => simp [load_one, descsOf, logOf, hf, hr]
    | some bs => simp [load_one, descsOf, logOf, hf, hr]

lemma loadLoop_eq (bd : String) :
    ∀ (files : List SFile) (st : LoadState),
      loadLoop bd files st =
        ⟨st.scripts_data ++ (files.map (descsOf bd)).flatten,
         st.log ++ (files.map logOf).flatten⟩ := by
  intro files
  induction files with
  | nil => intro st; simp [loadLoop]
  | cons f rest ih =>
    intro st
    rw [loadLoop, load_one_eq, ih]
    simp

/-- C4: during one directory scan, a failing file (unreadable, unparsable
or raising at top level) contributes zero descriptors, is logged with its
file name and trace, and never prevents later files from contributing
theirs: removing it from the listing yields the identical registry. -/
theorem C4_discovery_isolation (bd : String) (st : LoadState) (fs1 fs2 : List SFile)
    (bad : SFile) (hf : bad.isFile = true) (hr : bad.result = none) :
    (load_scripts bd true (fs1 ++ bad :: fs2) st).scripts_data
      = (load_scripts bd true (fs1 ++ fs2) st).scripts_data ∧
    ("Error loading script: " ++ bad.fname)
      ∈ (load_scripts bd true (fs1 ++ bad :: fs2) st).log ∧
    bad.trace ∈ (load_scripts bd true (fs1 ++ bad :: fs2) st).log := by
  have hd : descsOf bd bad = [] := by simp [descsOf, hf, hr]
  have hl : logOf bad = ["Error loading script: " ++ bad.fname, bad.trace] := by
    simp [logOf, hf, hr]
  refine ⟨?_, ?_, ?_⟩
  · simp [load_scripts, loadLoop_eq, hd]
  · simp [load_scripts, loadLoop_eq, hl]
  · simp [load_scripts, loadLoop_eq, hl]

/-- C10: the discovery class test is reflexive: a top-level binding that
is the `Script` base class itself passes
`type(x) == type and issubclass(x, Script)` and is appended to the
registry as a descriptor. -/
theorem C10_base_class_registered (bd : String) (st : LoadState) (f : SFile)
    (bs : List Binding) (hf : f.isFile = true) (hr : f.result = some bs)
    (hb : Binding.cls ScriptBase ∈ bs) :
    issubclassScript ScriptBase = true ∧
    (ScriptBase, pathJoin bd f.fname) ∈ (load_one bd st f).scripts_data := by
  refine ⟨rfl, ?_⟩
  simp only [load_one_eq, descsOf, hf, hr]
  simp only [Bool.true_eq_false, if_false]
  refine List.mem_append.mpr (Or.inr ?_)
  refine List.mem_map.mpr ⟨ScriptBase, ?_, rfl⟩
  exact List.mem_filterMap.mpr ⟨Binding.cls ScriptBase, hb, by rfl⟩

theorem C3_select_rule_witness :
    ScriptRunner.select_script [demoInstA, demoInstB] 5 1
      = Except.ok (ScriptRunner.visList 1 3 5, jsonDumps [("methods", ["Euler", "DDIM"])]) ∧
    ScriptRunner.select_script [demoInstA, demoInstB] 5 9
      = Except.ok (ScriptRunner.visList 0 0 5, "\x7b\x7d") :=
  ⟨((C3_select_rule [demoInstA, demoInstB] 5 1).1 0 demoInstA
      [("methods", ["Euler", "DDIM"])] (by decide) rfl rfl).1,
   ((C3_select_rule [demoInstA, demoInstB] 5 9).2 (by decide)).1⟩

/-- A plugin file that fails before contributing any descriptor. -/
def fileBad : SFile := ⟨"broken.py", true, none, "Traceback: SyntaxError"⟩

/-- A plugin file defining one valid plugin class. -/
def fileGood : SFile := ⟨"good.py", true, some [Binding.cls demoA, Binding.other], ""⟩

/-- A plugin file whose namespace holds the `Script` base class itself. -/
def fileBase : SFile := ⟨"base.py", true, some [Binding.cls ScriptBase], ""⟩

theorem C4_discovery_isolation_witness :
    (load_scripts "scripts" true [fileBad, fileGood] ⟨[], []⟩).scripts_data
      = (load_scripts "scripts" true [fileGood] ⟨[], []⟩).scripts_data ∧
    ("Error loading script: " ++ fileBad.fname)
      ∈ (load_scripts "scripts" true [fileBad, fileGood] ⟨[], []⟩).log ∧
    fileBad.trace ∈ (load_scripts "scripts" true [fileBad, fileGood] ⟨[], []⟩).log ∧
    (load_scripts "scripts" true [fileBad, fileGood] ⟨[], []⟩).scripts_data
      = [(demoA, "scripts/good.py")] := by
  refine ⟨(C4_discovery_isolation "scripts" ⟨[], []⟩ [] [fileGood] fileBad rfl rfl).1,
    (C4_discovery_isolation "scripts" ⟨[], []⟩ [] [fileGood] fileBad rfl rfl).2.1,
    (C4_discovery_isolation "scripts" ⟨[], []⟩ [] [fileGood] fileBad rfl rfl).2.2, ?_⟩
  rfl

theorem C10_base_class_registered_witness :
    issubclassScript ScriptBase = true ∧
    (ScriptBase, pathJoin "scripts" fileBase.fname)
      ∈ (load_one "scripts" ⟨[], []⟩ fileBase).scripts_data :=
  C10_base_class_registered "scripts" ⟨[], []⟩ fileBase [Binding.cls ScriptBase] rfl rfl
    (List.mem_singleton.mpr rfl)

/-- C5 is false on the code: with two retained instances, the non-zero
selector `-1` (outside `[1, N]`) does not raise an `IndexError`-class
condition — Python's negative indexing wraps around and the first
plugin's `run` is invoked (and the counter cleared). -/
theorem C5_negative_selector_cex :
    ScriptRunner.run [demoInstA, demoInstB] 0 [-1]
      = ⟨[(demoInstA, 0, [])], 1, Except.ok (some 0)⟩ ∧
    (ScriptRunner.run [demoInstA, demoInstB] 0 [-1]).out ≠ Except.error PyErr.indexError ∧
    (ScriptRunner.run [demoInstA, demoInstB] 0 [-1]).invocations ≠ [] := by
  have h : ScriptRunner.run [demoInstA, demoInstB] 0 [-1]
      = ⟨[(demoInstA, 0, [])], 1, Except.ok (some 0)⟩ := rfl
  refine ⟨h, ?_, ?_⟩ <;> rw [h] <;> simp

/-- C5 amended: a non-zero selector greater than `N`, or below `1 − N`,
makes dispatch fail with `IndexError` without invoking any `run`; but a
negative selector in `[1−N, −1]` wraps around (Python list indexing) and
invokes the `(N + selector)`-th retained plugin's `run` instead. -/
theorem C5_out_of_range_dispatch (scripts : List ScriptInst) (p : Nat) (i : Int)
    (rest : List Int) :
    (i ≠ 0 → ((scripts.length : Int) < i ∨ i < 1 - (scripts.length : Int)) →
      ScriptRunner.run scripts p (i :: rest) = ⟨[], 0, Except.error PyErr.indexError⟩) ∧
    (∀ (j : Nat) (s : ScriptInst), i < 0 → (j : Int) = (scripts.length : Int) + i - 1 →
      scripts[j]? = some s →
      (ScriptRunner.run scripts p (i :: rest)).invocations
        = [(s, p, pySlice (i :: rest) s.args_from s.args_to)]) := by
  constructor
  · intro hi0 hrange
    simp only [ScriptRunner.run]
    rw [if_neg hi0, pyGet_out_of_range scripts (i - 1) (by omega)]
  · intro j s hneg hj hs
    have hget : pyGet scripts (i - 1) = Except.ok s :=
      pyGet_neg scripts (i - 1) j s (by omega) (by omega) hs
    rw [run_sel scripts p i rest s (by omega) hget]
    cases hr : s.cls.run p (pySlice (i :: rest) s.args_from s.args_to) <;> simp [hr]

theorem C5_out_of_range_dispatch_witness :
    ScriptRunner.run [demoInstA, demoInstB] 0 (3 :: [])
      = ⟨[], 0, Except.error PyErr.indexError⟩ ∧
    (ScriptRunner.run [demoInstA, demoInstB] 0 ((-1) :: [])).invocations
      = [(demoInstA, 0, pySlice ((-1) :: []) demoInstA.args_from demoInstA.args_to)] :=
  ⟨(C5_out_of_range_dispatch [demoInstA, demoInstB] 0 3 []).1 (by decide) (by decide),
   (C5_out_of_range_dispatch [demoInstA, demoInstB] 0 (-1) []).2 0 demoInstA
     (by decide) (by decide) rfl⟩

/-- A demo plugin whose `show` raises. -/
def demoBadShow : ScriptClass where
  cname := "BadShow"
  ancestors := ["Script"]
  show_ := fun _ => Except.error (PyErr.exn "boom")
  title := Except.ok "Bad show"
  ui := fun _ => Except.ok none
  ui_restraints := Except.ok []
  run := fun _ _ => Except.ok none

/-- C6 is false on the code: `show` is called directly, not through
`wrap_call` — a plugin whose applicability check raises is not retained
and its exception aborts session construction. -/
theorem C6_show_not_wrapped_cex :
    ScriptRunner.setup_ui [] [(demoBadShow, "sd/bad.py")] false
      = Except.error (PyErr.exn "boom") := rfl

lemma filterShow_error (b : Bool) :
    ∀ (pre : List (ScriptClass × String)) (e : ScriptClass × String)
      (rest : List (ScriptClass × String)) (err : PyErr),
      (∀ x ∈ pre, ∃ v, x.1.show_ b = Except.ok v) →
      e.1.show_ b = Except.error err →
      ScriptRunner.filterShow (pre ++ e :: rest) b = Except.error err := by
  intro pre
  induction pre with
  | nil =>
    intro e rest err _ he
    simp [ScriptRunner.filterShow, he]
  | cons x pre ih =>
    intro e rest err hpre he
    obtain ⟨v, hv⟩ := hpre x (List.mem_cons_self x pre)
    have ht := ih e rest err (fun y hy => hpre y (List.mem_cons_of_mem x hy)) he
    simp [ScriptRunner.filterShow, hv, ht]

/-- C6 amended: the applicability check is invoked directly during session
build (not through `wrap_call`), so once every earlier descriptor's
`show` returns normally, a descriptor whose `show` raises propagates its
exception out of `setup_ui`, aborting session construction. -/
theorem C6_show_error_aborts (prior pre rest : List (ScriptClass × String))
    (e : ScriptClass × String) (b : Bool) (err : PyErr)
    (hpre : ∀ x ∈ pre, ∃ v, x.1.show_ b = Except.ok v)
    (he : e.1.show_ b = Except.error err) :
    ScriptRunner.setup_ui prior (pre ++ e :: rest) b = Except.error err := by
  simp [ScriptRunner.setup_ui, filterShow_error b pre e rest err hpre he]

theorem C6_show_error_aborts_witness :
    ScriptRunner.setup_ui [] ([(demoA, "sd/a.py")] ++ (demoBadShow, "sd/bad.py") :: []) false
      = Except.error (PyErr.exn "boom") :=
  C6_show_error_aborts [] [(demoA, "sd/a.py")] [] (demoBadShow, "sd/bad.py") false
    (PyErr.exn "boom")
    (by
      intro x hx
      rw [List.mem_singleton] at hx
      subst hx
      exact ⟨true, rfl⟩)
    rfl

/-- A demo plugin whose `title` succeeds with the empty string. -/
def demoEmptyTitle : ScriptClass where
  cname := "EmptyTitle"
  ancestors := ["Script"]
  show_ := fun _ => Except.ok true
  title := Except.ok ""
  ui := fun _ => Except.ok none
  ui_restraints := Except.ok []
  run := fun _ _ => Except.ok none

/-- C7 is false on the code: a successful but empty (falsy) `title`
result is reinterpreted as failure by the `or` fallback — the selector
choice shows `"sd/e.py [error]"`, not the returned empty string. -/
theorem C7_empty_title_cex :
    demoEmptyTitle.title = Except.ok "" ∧
    ScriptRunner.setup_ui [] [(demoEmptyTitle, "sd/e.py")] false
      = Except.ok ([⟨demoEmptyTitle, "sd/e.py", 1, 1⟩],
          [Comp.dropdown ["None", "sd/e.py [error]"], Comp.restraintsBox "\x7b\x7d"]) ∧
    ("sd/e.py [error]" : String) ≠ "" := by
  refine ⟨rfl, ?_, by decide⟩
  rfl

/-- C7 amended: the selector choice equals the `title()` result only when
that result is non-empty (truthy); the fallback `"<path> [error]"` is
substituted both when `title` raises and when it returns the falsy empty
string. -/
theorem C7_title_fallback (data : List (ScriptClass × String)) (b : Bool)
    (retained : List (ScriptClass × String))
    (hfs : ScriptRunner.filterShow data b = Except.ok retained) :
    ∃ insts comps titles,
      ScriptRunner.setup_ui [] data b = Except.ok (insts, comps) ∧
      comps[0]? = some (Comp.dropdown ("None" :: titles)) ∧
      titles.length = retained.length ∧
      ∀ (k : Nat) (e : ScriptClass × String), retained[k]? = some e →
        ((∀ str, e.1.title = Except.ok str → ¬(str = "") → titles[k]? = some str) ∧
         (e.1.title = Except.ok "" → titles[k]? = some (e.2 ++ " [error]")) ∧
         (∀ err, e.1.title = Except.error err → titles[k]? = some (e.2 ++ " [error]"))) := by
  have hsetup := setup_ui_eq [] data b retained hfs
  rw [List.nil_append] at hsetup
  refine ⟨_, _, retained.map (fun e => pyOrStr (wrap_call e.1.title) (e.2 ++ " [error]")),
    hsetup, by simp, by simp, ?_⟩
  intro k e hk
  have hmap : (retained.map (fun e => pyOrStr (wrap_call e.1.title) (e.2 ++ " [error]")))[k]?
      = some (pyOrStr (wrap_call e.1.title) (e.2 ++ " [error]")) := by
    simp [List.getElem?_map, hk]
  refine ⟨?_, ?_, ?_⟩
  · intro str ht hne
    rw [hmap, ht]
    simp [pyOrStr, wrap_call, hne]
  · intro ht
    rw [hmap, ht]
    simp [pyOrStr, wrap_call]
  · intro err ht
    rw [hmap, ht]
    simp [pyOrStr, wrap_call]

theorem C7_title_fallback_witness :
    ∃ insts comps titles,
      ScriptRunner.setup_ui [] [(demoA, "sd/a.py")] false = Except.ok (insts, comps) ∧
      comps[0]? = some (Comp.dropdown ("None" :: titles)) ∧
      titles.length = ([(demoA, "sd/a.py")] : List (ScriptClass × String)).length ∧
      ∀ (k : Nat) (e : ScriptClass × String),
        ([(demoA, "sd/a.py")] : List (ScriptClass × String))[k]? = some e →
        ((∀ str, e.1.title = Except.ok str → ¬(str = "") → titles[k]? = some str) ∧
         (e.1.title = Except.ok "" → titles[k]? = some (e.2 ++ " [error]")) ∧
         (∀ err, e.1.title = Except.error err → titles[k]? = some (e.2 ++ " [error]"))) :=
  C7_title_fallback [(demoA, "sd/a.py")] false [(demoA, "sd/a.py")] rfl

/-- A demo plugin whose `ui` raises. -/
def demoBadUI : ScriptClass where
  cname := "BadUI"
  ancestors := ["Script"]
  show_ := fun _ => Except.ok true
  title := Except.ok "Bad UI"
  ui := fun _ => Except.error (PyErr.exn "ui boom")
  ui_restraints := Except.ok []
  run := fun _ _ => Except.ok none

/-- C8: a retained plugin whose `ui` raises still occupies one selector
choice, records an empty range (`args_from = args_to`), and no exception
escapes session build (`setup_ui` still returns `ok`). -/
theorem C8_ui_error_keeps_slot (data : List (ScriptClass × String)) (b : Bool)
    (retained : List (ScriptClass × String)) (k : Nat) (e : ScriptClass × String) (err : PyErr)
    (hfs : ScriptRunner.filterShow data b = Except.ok retained)
    (hk : retained[k]? = some e)
    (hui : e.1.ui b = Except.error err) :
    ∃ insts comps titles,
      ScriptRunner.setup_ui [] data b = Except.ok (insts, comps) ∧
      comps[0]? = some (Comp.dropdown ("None" :: titles)) ∧
      titles.length = retained.length ∧
      ∃ s, insts[k]? = some s ∧ s.args_from = s.args_to := by
  have hsetup := setup_ui_eq [] data b retained hfs
  rw [List.nil_append] at hsetup
  have hcontrib : contrib b e = 0 := by simp [contrib, uiControls, wrap_call, hui]
  obtain ⟨s, hs, _, _, h3, h4⟩ := allocate_get b retained 1 k e hk
  rw [hcontrib] at h4
  refine ⟨_, _, retained.map (fun x => pyOrStr (wrap_call x.1.title) (x.2 ++ " [error]")),
    hsetup, by simp, by simp, s, hs, by omega⟩

theorem C8_ui_error_keeps_slot_witness :
    ∃ insts comps titles,
      ScriptRunner.setup_ui [] [(demoBadUI, "sd/u.py")] false = Except.ok (insts, comps) ∧
      comps[0]? = some (Comp.dropdown ("None" :: titles)) ∧
      titles.length = ([(demoBadUI, "sd/u.py")] : List (ScriptClass × String)).length ∧
      ∃ s, insts[0]? = some s ∧ s.args_from = s.args_to :=
  C8_ui_error_keeps_slot [(demoBadUI, "sd/u.py")] false [(demoBadUI, "sd/u.py")] 0
    (demoBadUI, "sd/u.py") (PyErr.exn "ui boom") rfl rfl rfl

end Scripts
